import Mathlib

/-!
Shallow embedding of the CHEB-PLACE backend (`main.py`): the persistence
store, the public review/gallery endpoints and the admin surface, together
with theorems checking the specification's claims about them.

Persistent entities are modelled as records in lists; integer primary keys
are modelled as `Int` counters (`next…Id`) assigned on insert, matching
SQLite autoincrement.  `created_at` columns (server default `now()`) are
modelled by an explicit `now : Nat` parameter.  An HTTP handler becomes a
pure function `Store → … → Except ApiError resp × Store`; raising an
`HTTPException` before any commit returns the input store unchanged.
-/

namespace ChebPlace

/-- `ReviewStatus` enum from main.py: moderation status of a review. -/
inductive ReviewStatus where
  | pending
  | approved
deriving DecidableEq

/-- `Place` model: a point of interest on the map. -/
structure Place where
  id : Int
  name : String
  category : String
  lat : String
  lng : String
  description : Option String
deriving DecidableEq

/-- `Review` model: visitor review of a place, subject to moderation. -/
structure Review where
  id : Int
  place_id : Int
  author_name : Option String
  rating : Int
  text : String
  status : ReviewStatus
  created_at : Nat
deriving DecidableEq

/-- `ReviewPhoto` model: photo attached to a review. -/
structure ReviewPhoto where
  id : Int
  review_id : Int
  url : String
deriving DecidableEq

/-- `Event` model. The calendar date is modelled as an opaque `Int`. -/
structure Event where
  id : Int
  title : String
  date : Int
  short_info : String
  cover_url : Option String
deriving DecidableEq

/-- `GallerySection` model: a named grouping of gallery photos. -/
structure GallerySection where
  id : Int
  name : String
deriving DecidableEq

/-- `GalleryPhoto` model: photo belonging to a gallery section. -/
structure GalleryPhoto where
  id : Int
  section_id : Int
  url : String
deriving DecidableEq

/-- `Feedback` model: visitor feedback message. -/
structure Feedback where
  id : Int
  name : String
  contact : Option String
  message : String
  is_read : Bool
  created_at : Nat
deriving DecidableEq

/-- The persistence store: one list per table plus the autoincrement
counters for the integer primary keys. -/
structure Store where
  places : List Place
  reviews : List Review
  review_photos : List ReviewPhoto
  events : List Event
  gallery_sections : List GallerySection
  gallery_photos : List GalleryPhoto
  feedbacks : List Feedback
  nextPlaceId : Int
  nextReviewId : Int
  nextReviewPhotoId : Int
  nextEventId : Int
  nextSectionId : Int
  nextGalleryPhotoId : Int
  nextFeedbackId : Int
deriving DecidableEq

/-- A freshly initialised database: all tables empty, counters at 1. -/
def emptyStore : Store := ⟨[], [], [], [], [], [], [], 1, 1, 1, 1, 1, 1, 1⟩

/-- Error outcomes of the HTTP handlers: `unauthorized` is HTTP 401,
`notFound` is 404, `validation` covers both FastAPI/pydantic request
validation (422) and the explicit 400 `HTTPException`s. -/
inductive ApiError where
  | unauthorized
  | notFound
  | validation
deriving DecidableEq

/-- An uploaded multipart file; only its (optional) client filename is
relevant to the store. -/
structure UploadFile where
  filename : Option String
deriving DecidableEq

/-- Python `Path(p).suffix` applied to the final path component:
the substring from the last dot, unless that dot is the first or last
character of the component. Helper: final component after the last slash. -/
def lastComp (cs : List Char) : List Char :=
  cs.foldl (fun acc c => if c = '/' then [] else acc ++ [c]) []

/-- Index of the last occurrence of `c` in `cs` (Python `str.rfind`). -/
def rfindIdx (c : Char) (cs : List Char) : Option Nat :=
  (List.range cs.length).foldl
    (fun acc i => if cs.get? i = some c then some i else acc) none

/-- Python `Path(p).suffix`. -/
def pathSuffix (p : String) : String :=
  let name := lastComp p.data
  match rfindIdx '.' name with
  | some i => if 0 < i ∧ i + 1 < name.length then ⟨name.drop i⟩ else ""
  | none => ""

/-- `Path(filename).suffix or ".jpg"` from the upload handlers. -/
def extOr (filename : String) : String :=
  let sfx := pathSuffix filename
  if sfx = "" then ".jpg" else sfx

/-- `ADMIN_API_KEY` from main.py: the fixed admin secret. -/
def ADMIN_API_KEY : String := "change-me-admin-key"

/-- Comparison `b.created_at ≤ a.created_at`, the sort key for
`order_by(created_at.desc())`. -/
def createdDesc (a b : Review) : Bool := decide (b.created_at ≤ a.created_at)

/-- Same descending-creation-time order for feedback listing. -/
def feedbackCreatedDesc (a b : Feedback) : Bool := decide (b.created_at ≤ a.created_at)

/-- `GET /reviews?place_id=` (`list_reviews`): the approved reviews of the
given place, newest first.  Total: the handler has no failure branch. -/
def list_reviews (s : Store) (place_id : Int) : List Review :=
  (s.reviews.filter (fun r => r.place_id == place_id && r.status == ReviewStatus.approved)).mergeSort
    createdDesc

/-- URL assigned to an uploaded review photo
(`/static/review_photos/review_{id}_{timestamp}{ext}`). -/
def reviewPhotoUrl (reviewId : Int) (now : Nat) (filename : Option String) : String :=
  "/static/review_photos/review_" ++ toString reviewId ++ "_" ++ toString now
    ++ extOr (filename.getD "")

/-- `POST /reviews` (`create_review`).  FastAPI validates the `rating` form
field against `ge=1, le=5` before the handler body runs; the body then
checks the place exists (404) and at most 5 files were sent (400), and
finally commits the pending review together with its photo records. -/
def create_review (s : Store) (place_id : Int) (author_name : Option String)
    (rating : Int) (text : String) (files : Option (List UploadFile)) (now : Nat) :
    Except ApiError (Int × ReviewStatus) × Store :=
  if ¬ (1 ≤ rating ∧ rating ≤ 5) then (.error .validation, s)
  else match s.places.find? (fun p => p.id == place_id) with
  | none => (.error .notFound, s)
  | some _ =>
    let file_list := files.getD []
    if file_list.length > 5 then (.error .validation, s)
    else
      let review : Review := ⟨s.nextReviewId, place_id, author_name, rating, text, .pending, now⟩
      let photos : List ReviewPhoto := file_list.enum.map
        (fun pr => ⟨s.nextReviewPhotoId + Int.ofNat pr.1, review.id, reviewPhotoUrl review.id now pr.2.filename⟩)
      (.ok (review.id, review.status),
       { s with
           reviews := s.reviews ++ [review],
           review_photos := s.review_photos ++ photos,
           nextReviewId := s.nextReviewId + 1,
           nextReviewPhotoId := s.nextReviewPhotoId + Int.ofNat file_list.length })

/-- URL assigned to an uploaded gallery photo
(`/static/gallery_photos/gallery_{section_id}_{timestamp}{ext}`). -/
def galleryPhotoUrl (sectionId : Int) (now : Nat) (filename : String) : String :=
  "/static/gallery_photos/gallery_" ++ toString sectionId ++ "_" ++ toString now
    ++ extOr filename

/-- `POST /gallery/upload` (`upload_gallery_photo`).  `section_name` is a
form field with default `"Общие"`; a missing/empty filename is a 400; the
first existing section with the given name is reused, otherwise a new
section is created, and the photo is attached to it. -/
def upload_gallery_photo (s : Store) (filename : Option String)
    (section_name : Option String) (now : Nat) :
    Except ApiError (Int × String × Int × String) × Store :=
  let name := section_name.getD "Общие"
  if filename.getD "" = "" then (.error .validation, s)
  else
    match s.gallery_sections.find? (fun sec => sec.name == name) with
    | some sec =>
      let photo : GalleryPhoto := ⟨s.nextGalleryPhotoId, sec.id, galleryPhotoUrl sec.id now (filename.getD "")⟩
      (.ok (photo.id, photo.url, sec.id, sec.name),
       { s with
           gallery_photos := s.gallery_photos ++ [photo],
           nextGalleryPhotoId := s.nextGalleryPhotoId + 1 })
    | none =>
      let sec : GallerySection := ⟨s.nextSectionId, name⟩
      let photo : GalleryPhoto := ⟨s.nextGalleryPhotoId, sec.id, galleryPhotoUrl sec.id now (filename.getD "")⟩
      (.ok (photo.id, photo.url, sec.id, sec.name),
       { s with
           gallery_sections := s.gallery_sections ++ [sec],
           gallery_photos := s.gallery_photos ++ [photo],
           nextSectionId := s.nextSectionId + 1,
           nextGalleryPhotoId := s.nextGalleryPhotoId + 1 })

/-- `POST /feedback` (`create_feedback`): always succeeds, `is_read` false. -/
def create_feedback (s : Store) (name : String) (contact : Option String)
    (message : String) (now : Nat) : Except ApiError Feedback × Store :=
  let fb : Feedback := ⟨s.nextFeedbackId, name, contact, message, false, now⟩
  (.ok fb, { s with feedbacks := s.feedbacks ++ [fb], nextFeedbackId := s.nextFeedbackId + 1 })

/-- `EventCreate` pydantic payload. -/
structure EventCreate where
  title : String
  date : Int
  short_info : String
  cover_url : Option String
deriving DecidableEq

/-- Pydantic validation of `EventCreate`: `short_info` has
`max_length=255` and the `validate_short_info` validator rejects any
`"\n"` or `"\r"` character. -/
def eventCreateValid (p : EventCreate) : Bool :=
  decide (p.short_info.length ≤ 255)
    && !(decide ('\n' ∈ p.short_info.data))
    && !(decide ('\r' ∈ p.short_info.data))

/-- Responses of the admin handlers, in one type so that the shared
`require_admin` guard can be expressed once. -/
inductive AdminResp where
  | reviews (rs : List Review)
  | reviewStatus (id : Int) (status : ReviewStatus)
  | place (p : Place)
  | event (e : Event)
  | events (es : List Event)
  | gallerySection (sec : GallerySection)
  | galleryPhoto (ph : GalleryPhoto)
  | deleted (id : Int)
  | feedbacks (fs : List Feedback)
  | feedbackRead (id : Int) (is_read : Bool)
deriving DecidableEq

/-- `GET /admin/reviews/pending`: pending reviews, newest first. -/
def admin_list_pending_reviews (s : Store) : Except ApiError AdminResp × Store :=
  (.ok (.reviews ((s.reviews.filter (fun r => r.status == ReviewStatus.pending)).mergeSort createdDesc)), s)

/-- `POST /admin/reviews/{id}/approve`: set the review's status to
approved; 404 if the id is unknown. -/
def admin_approve_review (s : Store) (review_id : Int) : Except ApiError AdminResp × Store :=
  match s.reviews.find? (fun r => r.id == review_id) with
  | none => (.error .notFound, s)
  | some r =>
    (.ok (.reviewStatus r.id .approved),
     { s with reviews :=
         s.reviews.map fun x =>
           if x.id == review_id then { x with status := ReviewStatus.approved } else x })

/-- `POST /admin/places`: insert a new place. -/
def admin_create_place (s : Store) (name category lat lng : String)
    (description : Option String) : Except ApiError AdminResp × Store :=
  let p : Place := ⟨s.nextPlaceId, name, category, lat, lng, description⟩
  (.ok (.place p), { s with places := s.places ++ [p], nextPlaceId := s.nextPlaceId + 1 })

/-- `POST /admin/events`: payload validation, then insert. -/
def admin_create_event (s : Store) (payload : EventCreate) : Except ApiError AdminResp × Store :=
  if eventCreateValid payload then
    let e : Event := ⟨s.nextEventId, payload.title, payload.date, payload.short_info, payload.cover_url⟩
    (.ok (.event e), { s with events := s.events ++ [e], nextEventId := s.nextEventId + 1 })
  else (.error .validation, s)

/-- Ascending-date order used by the event listings. -/
def eventDateAsc (a b : Event) : Bool := decide (a.date ≤ b.date)

/-- `GET /admin/events`: all events, date ascending. -/
def admin_list_events (s : Store) : Except ApiError AdminResp × Store :=
  (.ok (.events (s.events.mergeSort eventDateAsc)), s)

/-- `PUT /admin/events/{id}`: payload validation, then update all fields
of the event with that id; 404 if unknown. -/
def admin_update_event (s : Store) (event_id : Int) (payload : EventCreate) :
    Except ApiError AdminResp × Store :=
  if eventCreateValid payload then
    match s.events.find? (fun e => e.id == event_id) with
    | none => (.error .notFound, s)
    | some e =>
      let e' : Event := ⟨e.id, payload.title, payload.date, payload.short_info, payload.cover_url⟩
      (.ok (.event e'),
       { s with events :=
           s.events.map fun x =>
             if x.id == event_id then ⟨x.id, payload.title, payload.date, payload.short_info, payload.cover_url⟩ else x })
  else (.error .validation, s)

/-- `DELETE /admin/events/{id}`: 404 if unknown, else remove the row. -/
def admin_delete_event (s : Store) (event_id : Int) : Except ApiError AdminResp × Store :=
  match s.events.find? (fun e => e.id == event_id) with
  | none => (.error .notFound, s)
  | some _ =>
    (.ok (.deleted event_id), { s with events := s.events.filter (fun e => !(e.id == event_id)) })

/-- `POST /admin/gallery/sections`: insert a new section. -/
def admin_create_gallery_section (s : Store) (name : String) : Except ApiError AdminResp × Store :=
  let sec : GallerySection := ⟨s.nextSectionId, name⟩
  (.ok (.gallerySection sec),
   { s with gallery_sections := s.gallery_sections ++ [sec], nextSectionId := s.nextSectionId + 1 })

/-- `PUT /admin/gallery/sections/{id}`: rename; 404 if unknown. -/
def admin_rename_gallery_section (s : Store) (section_id : Int) (name : String) :
    Except ApiError AdminResp × Store :=
  match s.gallery_sections.find? (fun sec => sec.id == section_id) with
  | none => (.error .notFound, s)
  | some sec =>
    (.ok (.gallerySection ⟨sec.id, name⟩),
     { s with gallery_sections :=
         s.gallery_sections.map fun x =>
           if x.id == section_id then ⟨x.id, name⟩ else x })

/-- `DELETE /admin/gallery/sections/{id}`: 404 if unknown; the delete
cascades to the section's photos (`cascade="all, delete-orphan"`). -/
def admin_delete_gallery_section (s : Store) (section_id : Int) :
    Except ApiError AdminResp × Store :=
  match s.gallery_sections.find? (fun sec => sec.id == section_id) with
  | none => (.error .notFound, s)
  | some _ =>
    (.ok (.deleted section_id),
     { s with
         gallery_sections := s.gallery_sections.filter (fun sec => !(sec.id == section_id)),
         gallery_photos := s.gallery_photos.filter (fun p => !(p.section_id == section_id)) })

/-- `POST /admin/gallery/photos`: attach a photo by URL to an existing
section; 404 if the section id is unknown. -/
def admin_add_gallery_photo (s : Store) (section_id : Int) (url : String) :
    Except ApiError AdminResp × Store :=
  match s.gallery_sections.find? (fun sec => sec.id == section_id) with
  | none => (.error .notFound, s)
  | some _ =>
    let photo : GalleryPhoto := ⟨s.nextGalleryPhotoId, section_id, url⟩
    (.ok (.galleryPhoto photo),
     { s with gallery_photos := s.gallery_photos ++ [photo],
              nextGalleryPhotoId := s.nextGalleryPhotoId + 1 })

/-- `DELETE /admin/gallery/photos/{id}`: 404 if unknown, else remove. -/
def admin_delete_gallery_photo (s : Store) (photo_id : Int) : Except ApiError AdminResp × Store :=
  match s.gallery_photos.find? (fun p => p.id == photo_id) with
  | none => (.error .notFound, s)
  | some _ =>
    (.ok (.deleted photo_id),
     { s with gallery_photos := s.gallery_photos.filter (fun p => !(p.id == photo_id)) })

/-- `GET /admin/feedback`: all feedback, newest first. -/
def admin_list_feedback (s : Store) : Except ApiError AdminResp × Store :=
  (.ok (.feedbacks (s.feedbacks.mergeSort feedbackCreatedDesc)), s)

/-- `POST /admin/feedback/{id}/mark_read`: set `is_read`; 404 if unknown. -/
def admin_mark_feedback_read (s : Store) (feedback_id : Int) : Except ApiError AdminResp × Store :=
  match s.feedbacks.find? (fun fb => fb.id == feedback_id) with
  | none => (.error .notFound, s)
  | some fb =>
    (.ok (.feedbackRead fb.id true),
     { s with feedbacks :=
         s.feedbacks.map fun x =>
           if x.id == feedback_id then { x with is_read := true } else x })

/-- The admin-only operations, one constructor per admin endpoint. -/
inductive AdminOp where
  | listPendingReviews
  | approveReview (review_id : Int)
  | createPlace (name category lat lng : String) (description : Option String)
  | createEvent (payload : EventCreate)
  | listEvents
  | updateEvent (event_id : Int) (payload : EventCreate)
  | deleteEvent (event_id : Int)
  | createGallerySection (name : String)
  | renameGallerySection (section_id : Int) (name : String)
  | deleteGallerySection (section_id : Int)
  | addGalleryPhoto (section_id : Int) (url : String)
  | deleteGalleryPhoto (photo_id : Int)
  | listFeedback
  | markFeedbackRead (feedback_id : Int)
deriving DecidableEq

/-- An admin request: `require_admin` compares the `X-Admin-Key` header
(absent ↦ `none`) against `ADMIN_API_KEY` and raises 401 on mismatch
before the endpoint body runs; on a match the endpoint is dispatched. -/
def runAdminOp (api_key : Option String) (op : AdminOp) (s : Store) :
    Except ApiError AdminResp × Store :=
  if api_key == some ADMIN_API_KEY then
    match op with
    | .listPendingReviews => admin_list_pending_reviews s
    | .approveReview rid => admin_approve_review s rid
    | .createPlace n c la ln d => admin_create_place s n c la ln d
    | .createEvent p => admin_create_event s p
    | .listEvents => admin_list_events s
    | .updateEvent eid p => admin_update_event s eid p
    | .deleteEvent eid => admin_delete_event s eid
    | .createGallerySection n => admin_create_gallery_section s n
    | .renameGallerySection sid n => admin_rename_gallery_section s sid n
    | .deleteGallerySection sid => admin_delete_gallery_section s sid
    | .addGalleryPhoto sid url => admin_add_gallery_photo s sid url
    | .deleteGalleryPhoto pid => admin_delete_gallery_photo s pid
    | .listFeedback => admin_list_feedback s
    | .markFeedbackRead fid => admin_mark_feedback_read s fid
  else (.error .unauthorized, s)

/-! Concrete sample data used by the witness theorems. -/

/-- A sample place with id 1. -/
def samplePlace : Place := ⟨1, "p", "c", "0", "0", none⟩

/-- A store holding just `samplePlace`. -/
def storeP : Store := { emptyStore with places := [samplePlace], nextPlaceId := 2 }

/-- A sample pending review of `samplePlace`. -/
def sampleReview : Review := ⟨1, 1, none, 4, "ok", .pending, 0⟩

/-- A store holding `samplePlace` and `sampleReview`. -/
def storeR : Store := { storeP with reviews := [sampleReview], nextReviewId := 2 }

/-- A sample gallery section named "X". -/
def sampleSection : GallerySection := ⟨1, "X"⟩

/-- A store holding just `sampleSection`. -/
def storeG : Store := { emptyStore with gallery_sections := [sampleSection], nextSectionId := 2 }

/-- Six uploaded files, one more than the review photo limit. -/
def sixFiles : List UploadFile := List.replicate 6 ⟨some "a.jpg"⟩

/-- A sample event with id 1. -/
def sampleEvent : Event := ⟨1, "t", 0, "i", none⟩

/-- A store holding just `sampleEvent`. -/
def storeE : Store := { emptyStore with events := [sampleEvent], nextEventId := 2 }

/-- A 256-character single-line string: over the 255-character limit of
`Event.short_info` while containing no carriage return or line feed. -/
def longInfo : String := ⟨List.replicate 256 'a'⟩

/-- Whether a handler outcome is a success (HTTP 2xx) rather than an error. -/
def isOk {α : Type} : Except ApiError α → Bool
  | .ok _ => true
  | .error _ => false

/-- If some place has the requested id, `find?` over the places table
returns a hit. -/
theorem places_find?_hit {s : Store} {place_id : Int}
    (hplace : ∃ p ∈ s.places, p.id = place_id) :
    ∃ p, s.places.find? (fun q => q.id == place_id) = some p := by
  have h : (s.places.find? (fun q => q.id == place_id)).isSome := by
    rw [List.find?_isSome]
    obtain ⟨p, hp, hid⟩ := hplace
    exact ⟨p, hp, by simp [hid]⟩
  exact Option.isSome_iff_exists.mp h

/-- Reduction of `create_review` once the rating is valid and the place
lookup has resolved: only the photo-count check remains. -/
theorem create_review_found_eq (s : Store) (place_id : Int)
    (author_name : Option String) (rating : Int) (text : String)
    (files : Option (List UploadFile)) (now : Nat) (p : Place)
    (hp : s.places.find? (fun q => q.id == place_id) = some p)
    (hr : 1 ≤ rating ∧ rating ≤ 5) :
    create_review s place_id author_name rating text files now =
      if (files.getD []).length > 5 then (.error .validation, s)
      else
        (.ok (s.nextReviewId, ReviewStatus.pending),
         { s with
             reviews := s.reviews ++ [⟨s.nextReviewId, place_id, author_name, rating, text, .pending, now⟩],
             review_photos := s.review_photos ++ (files.getD []).enum.map
               (fun pr => ⟨s.nextReviewPhotoId + Int.ofNat pr.1, s.nextReviewId, reviewPhotoUrl s.nextReviewId now pr.2.filename⟩),
             nextReviewId := s.nextReviewId + 1,
             nextReviewPhotoId := s.nextReviewPhotoId + Int.ofNat (files.getD []).length }) := by
  unfold create_review
  rw [if_neg (not_not_intro hr), hp]

/-- C2: the public review listing returns exactly the approved reviews of
the requested place (as a permutation of the filtered table, with
membership characterised), ordered by creation time descending, and never
contains a pending review. -/
theorem list_reviews_approved_sorted (s : Store) (place_id : Int) :
    (∀ r, r ∈ list_reviews s place_id ↔
        (r ∈ s.reviews ∧ r.place_id = place_id ∧ r.status = .approved))
    ∧ (list_reviews s place_id).Perm
        (s.reviews.filter (fun r => r.place_id == place_id && r.status == ReviewStatus.approved))
    ∧ (list_reviews s place_id).Pairwise (fun a b => b.created_at ≤ a.created_at)
    ∧ ∀ r ∈ list_reviews s place_id, r.status ≠ .pending := by
  have hmem : ∀ r, r ∈ list_reviews s place_id ↔
      (r ∈ s.reviews ∧ r.place_id = place_id ∧ r.status = .approved) := by
    intro r
    unfold list_reviews
    simp only [List.mem_mergeSort, List.mem_filter, Bool.and_eq_true, beq_iff_eq]
  refine ⟨hmem, List.mergeSort_perm _ _, ?_, ?_⟩
  · have hs := @List.sorted_mergeSort Review createdDesc
      (fun a b c hab hbc => by
        simp only [createdDesc, decide_eq_true_eq] at *
        exact Nat.le_trans hbc hab)
      (fun a b => by
        simp only [createdDesc, Bool.or_eq_true, decide_eq_true_eq]
        exact Nat.le_total b.created_at a.created_at)
      (s.reviews.filter (fun r => r.place_id == place_id && r.status == ReviewStatus.approved))
    exact hs.imp (fun hab => by simpa [createdDesc] using hab)
  · intro r hr
    have := ((hmem r).mp hr).2.2
    rw [this]
    intro hcontra
    exact ReviewStatus.noConfusion hcontra

/-- C3: approving an existing review sets its status to approved
(idempotently — an already-approved review is simply re-set, no error),
and approving an unknown review id fails with NotFound and changes
nothing. -/
theorem approve_review_spec (s : Store) (review_id : Int) :
    ((∃ r ∈ s.reviews, r.id = review_id) →
      admin_approve_review s review_id =
        (.ok (.reviewStatus review_id .approved),
         { s with reviews := s.reviews.map fun x =>
             if x.id == review_id then { x with status := ReviewStatus.approved } else x }))
    ∧ ((∀ r ∈ s.reviews, r.id ≠ review_id) →
      admin_approve_review s review_id = (.error .notFound, s)) := by
  constructor
  · rintro ⟨r, hr, hid⟩
    unfold admin_approve_review
    split
    · next hfind =>
        exfalso
        rw [List.find?_eq_none] at hfind
        exact hfind r hr (by simp [hid])
    · next r' hfind =>
        have hid' : r'.id = review_id := by
          have := List.find?_some hfind
          simpa using this
        rw [hid']
  · intro hnone
    unfold admin_approve_review
    split
    · rfl
    · next r' hfind =>
        exfalso
        exact hnone r' (List.mem_of_find?_eq_some hfind)
          (by simpa using List.find?_some hfind)

/-- Witness for C3: review 1 exists in `storeR`; review 2 does not. -/
theorem approve_review_spec_witness :
    (admin_approve_review storeR 1 =
        (.ok (.reviewStatus 1 .approved),
         { storeR with reviews := storeR.reviews.map fun x =>
             if x.id == 1 then { x with status := ReviewStatus.approved } else x }))
    ∧ admin_approve_review storeR 2 = (.error .notFound, storeR) :=
  ⟨(approve_review_spec storeR 1).1 ⟨sampleReview, by decide, rfl⟩,
   (approve_review_spec storeR 2).2 (by decide)⟩

/-- C1: every admin-only operation invoked with an absent or wrong
credential header fails with Unauthorized and returns the store exactly
unchanged: no entity is created, modified, or deleted. -/
theorem admin_unauthorized_no_change (api_key : Option String) (op : AdminOp) (s : Store)
    (h : api_key ≠ some ADMIN_API_KEY) :
    runAdminOp api_key op s = (.error .unauthorized, s) := by
  unfold runAdminOp
  simp [h]

/-- Witness for C1: a missing header on the pending-review listing. -/
theorem admin_unauthorized_no_change_witness :
    runAdminOp none .listPendingReviews emptyStore = (.error .unauthorized, emptyStore) :=
  admin_unauthorized_no_change none .listPendingReviews emptyStore (by decide)

/-- C4: whenever a review submission succeeds, the returned status is
pending, and every review the submission added to the store has status
pending — no submission creates an approved review. -/
theorem create_review_creates_pending (s : Store) (place_id : Int)
    (author_name : Option String) (rating : Int) (text : String)
    (files : Option (List UploadFile)) (now : Nat)
    (out : Int × ReviewStatus) (s' : Store)
    (h : create_review s place_id author_name rating text files now = (.ok out, s')) :
    out.2 = .pending ∧ ∀ r ∈ s'.reviews, r ∉ s.reviews → r.status = .pending := by
  simp only [create_review] at h
  split at h
  · simp at h
  split at h
  · simp at h
  split at h
  · simp at h
  · injection h with h1 h2
    injection h1 with h3
    subst h2
    refine ⟨by rw [← h3], ?_⟩
    intro r hr hnr
    rcases List.mem_append.mp hr with h' | h'
    · exact absurd h' hnr
    · rw [List.mem_singleton] at h'
      subst h'
      rfl

/-- Witness for C4: a successful submission against `storeP`. -/
theorem create_review_creates_pending_witness :
    ((1 : Int), ReviewStatus.pending).2 = .pending ∧
      ∀ r ∈ ((create_review storeP 1 none 4 "ok" none 0).2).reviews,
        r ∉ storeP.reviews → r.status = .pending :=
  create_review_creates_pending storeP 1 none 4 "ok" none 0 (1, .pending)
    (create_review storeP 1 none 4 "ok" none 0).2 rfl

/-- C9 counterexample: on a fresh store, uploading a gallery photo with
no explicit section name creates the section named "Общие" — not
"general" as the claim states. -/
theorem gallery_default_section_counterexample :
    (upload_gallery_photo emptyStore (some "f.jpg") none 0).2.gallery_sections
        = [⟨1, "Общие"⟩] ∧ ("Общие" : String) ≠ "general" := by
  exact ⟨rfl, by decide⟩

/-- C9 amended: when invoked without an explicit section name, the public
gallery upload behaves exactly as if the section name "Общие" (the
actual form-field default) had been supplied. -/
theorem gallery_default_section_name (s : Store) (filename : Option String) (now : Nat) :
    upload_gallery_photo s filename none now
      = upload_gallery_photo s filename (some "Общие") now := rfl

/-- C10: when no place has the requested id — under the referential
invariant the code maintains (every stored review's place_id references
an existing place) — the public review listing returns the empty list;
the handler is a total function with no failure branch, so it succeeds
rather than failing with NotFound. -/
theorem list_reviews_unknown_place (s : Store) (place_id : Int)
    (hwf : ∀ r ∈ s.reviews, ∃ p ∈ s.places, p.id = r.place_id)
    (hnp : ∀ p ∈ s.places, p.id ≠ place_id) :
    list_reviews s place_id = [] := by
  unfold list_reviews
  have hfil : s.reviews.filter
      (fun r => r.place_id == place_id && r.status == ReviewStatus.approved) = [] := by
    rw [List.filter_eq_nil_iff]
    intro r hr hcontra
    simp only [Bool.and_eq_true, beq_iff_eq] at hcontra
    obtain ⟨p, hp, hpid⟩ := hwf r hr
    exact hnp p hp (hpid.trans hcontra.1)
  rw [hfil]
  exact List.mergeSort_nil

/-- Witness for C10: place id 2 is unknown to `storeR`. -/
theorem list_reviews_unknown_place_witness : list_reviews storeR 2 = [] :=
  list_reviews_unknown_place storeR 2 (by decide) (by decide)

/-- C5: with an existing place and at most 5 photos, a review submission
succeeds exactly when 1 ≤ rating ≤ 5; any out-of-range rating (such as
0 or 6) fails with ValidationError. -/
theorem create_review_rating_bounds (s : Store) (place_id : Int)
    (author_name : Option String) (rating : Int) (text : String)
    (files : Option (List UploadFile)) (now : Nat)
    (hplace : ∃ p ∈ s.places, p.id = place_id)
    (hfiles : (files.getD []).length ≤ 5) :
    (isOk (create_review s place_id author_name rating text files now).1 = true
        ↔ (1 ≤ rating ∧ rating ≤ 5))
    ∧ (¬ (1 ≤ rating ∧ rating ≤ 5) →
        create_review s place_id author_name rating text files now = (.error .validation, s)) := by
  obtain ⟨p, hp⟩ := places_find?_hit hplace
  have herr : ¬ (1 ≤ rating ∧ rating ≤ 5) →
      create_review s place_id author_name rating text files now = (.error .validation, s) := by
    intro hr
    unfold create_review
    rw [if_pos hr]
  refine ⟨⟨?_, ?_⟩, herr⟩
  · intro hok
    by_contra hr
    rw [herr hr] at hok
    simp [isOk] at hok
  · intro hr
    rw [create_review_found_eq s place_id author_name rating text files now p hp hr,
        if_neg (by omega : ¬ (files.getD []).length > 5)]
    rfl

/-- Witness for C5: rating 6 against `storeP` is rejected. -/
theorem create_review_rating_bounds_witness :
    (isOk (create_review storeP 1 none 6 "ok" none 0).1 = true
        ↔ (1 ≤ (6 : Int) ∧ (6 : Int) ≤ 5))
    ∧ (¬ (1 ≤ (6 : Int) ∧ (6 : Int) ≤ 5) →
        create_review storeP 1 none 6 "ok" none 0 = (.error .validation, storeP)) :=
  create_review_rating_bounds storeP 1 none 6 "ok" none 0 (by decide) (by decide)

/-- C6: submitting a review with more than 5 photo attachments (e.g. 6)
to an existing place with a valid rating fails with ValidationError and
returns the store exactly unchanged: zero Review and zero ReviewPhoto
records are created. -/
theorem create_review_six_photos (s : Store) (place_id : Int)
    (author_name : Option String) (rating : Int) (text : String)
    (files : Option (List UploadFile)) (now : Nat)
    (hplace : ∃ p ∈ s.places, p.id = place_id)
    (hr : 1 ≤ rating ∧ rating ≤ 5)
    (hfiles : 5 < (files.getD []).length) :
    create_review s place_id author_name rating text files now = (.error .validation, s) := by
  obtain ⟨p, hp⟩ := places_find?_hit hplace
  rw [create_review_found_eq s place_id author_name rating text files now p hp hr,
      if_pos hfiles]

/-- Witness for C6: six photo files against `storeP`. -/
theorem create_review_six_photos_witness :
    create_review storeP 1 none 4 "t" (some sixFiles) 0 = (.error .validation, storeP) :=
  create_review_six_photos storeP 1 none 4 "t" (some sixFiles) 0 (by decide) (by decide)
    (by decide)

/-- C7: uploading a gallery photo reuses the first existing section whose
name equals the supplied one (the sections table is unchanged) or, when
no section has that name, creates exactly one new section with that name;
either way the photo is attached to that section. -/
theorem upload_gallery_photo_sections (s : Store) (fn : String)
    (section_name : Option String) (now : Nat) (hfn : fn ≠ "") :
    (∀ sec, s.gallery_sections.find? (fun t => t.name == section_name.getD "Общие") = some sec →
        upload_gallery_photo s (some fn) section_name now =
          (.ok (s.nextGalleryPhotoId, galleryPhotoUrl sec.id now fn, sec.id, sec.name),
           { s with
               gallery_photos := s.gallery_photos ++ [⟨s.nextGalleryPhotoId, sec.id, galleryPhotoUrl sec.id now fn⟩],
               nextGalleryPhotoId := s.nextGalleryPhotoId + 1 })
          ∧ sec ∈ s.gallery_sections ∧ sec.name = section_name.getD "Общие")
    ∧ ((∀ sec ∈ s.gallery_sections, sec.name ≠ section_name.getD "Общие") →
        upload_gallery_photo s (some fn) section_name now =
          (.ok (s.nextGalleryPhotoId, galleryPhotoUrl s.nextSectionId now fn, s.nextSectionId, section_name.getD "Общие"),
           { s with
               gallery_sections := s.gallery_sections ++ [⟨s.nextSectionId, section_name.getD "Общие"⟩],
               gallery_photos := s.gallery_photos ++ [⟨s.nextGalleryPhotoId, s.nextSectionId, galleryPhotoUrl s.nextSectionId now fn⟩],
               nextSectionId := s.nextSectionId + 1,
               nextGalleryPhotoId := s.nextGalleryPhotoId + 1 })) := by
  have hfn' : ¬ ((some fn).getD "" = "") := by simpa using hfn
  constructor
  · intro sec hfind
    refine ⟨?_, List.mem_of_find?_eq_some hfind, by simpa using List.find?_some hfind⟩
    simp only [upload_gallery_photo]
    rw [if_neg hfn', hfind]
    rfl
  · intro hnone
    have hfind : s.gallery_sections.find? (fun t => t.name == section_name.getD "Общие") = none := by
      rw [List.find?_eq_none]
      intro sec hsec
      simpa using hnone sec hsec
    simp only [upload_gallery_photo]
    rw [if_neg hfn', hfind]
    rfl

/-- Witness for C7: reuse of section "X" in `storeG`, and creation of a
new section "Y" in the empty store. -/
theorem upload_gallery_photo_sections_witness :
    (upload_gallery_photo storeG (some "f.jpg") (some "X") 0 =
        (.ok (storeG.nextGalleryPhotoId, galleryPhotoUrl sampleSection.id 0 "f.jpg", sampleSection.id, sampleSection.name),
         { storeG with
             gallery_photos := storeG.gallery_photos ++ [⟨storeG.nextGalleryPhotoId, sampleSection.id, galleryPhotoUrl sampleSection.id 0 "f.jpg"⟩],
             nextGalleryPhotoId := storeG.nextGalleryPhotoId + 1 })
        ∧ sampleSection ∈ storeG.gallery_sections ∧ sampleSection.name = (some "X").getD "Общие")
    ∧ upload_gallery_photo emptyStore (some "f.jpg") (some "Y") 0 =
        (.ok (emptyStore.nextGalleryPhotoId, galleryPhotoUrl emptyStore.nextSectionId 0 "f.jpg", emptyStore.nextSectionId, (some "Y").getD "Общие"),
         { emptyStore with
             gallery_sections := emptyStore.gallery_sections ++ [⟨emptyStore.nextSectionId, (some "Y").getD "Общие"⟩],
             gallery_photos := emptyStore.gallery_photos ++ [⟨emptyStore.nextGalleryPhotoId, emptyStore.nextSectionId, galleryPhotoUrl emptyStore.nextSectionId 0 "f.jpg"⟩],
             nextSectionId := emptyStore.nextSectionId + 1,
             nextGalleryPhotoId := emptyStore.nextGalleryPhotoId + 1 }) :=
  ⟨(upload_gallery_photo_sections storeG "f.jpg" (some "X") 0 (by decide)).1 sampleSection (by decide),
   (upload_gallery_photo_sections emptyStore "f.jpg" (some "Y") 0 (by decide)).2 (by decide)⟩

/-- A payload containing a line break fails `EventCreate` validation. -/
theorem eventCreateValid_false_of_newline {payload : EventCreate}
    (h : '\n' ∈ payload.short_info.data ∨ '\r' ∈ payload.short_info.data) :
    eventCreateValid payload = false := by
  rcases h with h | h <;> simp [eventCreateValid, h]

/-- A single-line payload within the length limit passes validation. -/
theorem eventCreateValid_true {payload : EventCreate}
    (h1 : '\n' ∉ payload.short_info.data) (h2 : '\r' ∉ payload.short_info.data)
    (h3 : payload.short_info.length ≤ 255) :
    eventCreateValid payload = true := by
  simp [eventCreateValid, h1, h2, h3]

/-- Invalid payload: event creation fails and commits nothing. -/
theorem admin_create_event_invalid (s : Store) (payload : EventCreate)
    (h : eventCreateValid payload = false) :
    admin_create_event s payload = (.error .validation, s) := by
  unfold admin_create_event
  rw [h]
  rfl

/-- Valid payload: event creation appends exactly one event row. -/
theorem admin_create_event_valid (s : Store) (payload : EventCreate)
    (h : eventCreateValid payload = true) :
    admin_create_event s payload =
      (.ok (.event ⟨s.nextEventId, payload.title, payload.date, payload.short_info, payload.cover_url⟩),
       { s with
           events := s.events ++ [⟨s.nextEventId, payload.title, payload.date, payload.short_info, payload.cover_url⟩],
           nextEventId := s.nextEventId + 1 }) := by
  unfold admin_create_event
  rw [h]
  rfl

/-- Invalid payload: event update fails and commits nothing. -/
theorem admin_update_event_invalid (s : Store) (event_id : Int) (payload : EventCreate)
    (h : eventCreateValid payload = false) :
    admin_update_event s event_id payload = (.error .validation, s) := by
  unfold admin_update_event
  rw [h]
  rfl

/-- Valid payload, existing event: the update overwrites its fields. -/
theorem admin_update_event_found (s : Store) (event_id : Int) (payload : EventCreate)
    (e : Event) (h : eventCreateValid payload = true)
    (hfind : s.events.find? (fun x => x.id == event_id) = some e) :
    admin_update_event s event_id payload =
      (.ok (.event ⟨e.id, payload.title, payload.date, payload.short_info, payload.cover_url⟩),
       { s with events := s.events.map fun x =>
           if x.id == event_id then ⟨x.id, payload.title, payload.date, payload.short_info, payload.cover_url⟩ else x }) := by
  unfold admin_update_event
  rw [h, hfind]
  rfl

/-- With the correct key, an event-creation request dispatches to the
creation handler. -/
theorem runAdminOp_createEvent (payload : EventCreate) (s : Store) :
    runAdminOp (some ADMIN_API_KEY) (.createEvent payload) s = admin_create_event s payload := by
  unfold runAdminOp
  rw [if_pos (by simp : (some ADMIN_API_KEY == some ADMIN_API_KEY) = true)]

/-- With the correct key, an event-update request dispatches to the
update handler. -/
theorem runAdminOp_updateEvent (event_id : Int) (payload : EventCreate) (s : Store) :
    runAdminOp (some ADMIN_API_KEY) (.updateEvent event_id payload) s =
      admin_update_event s event_id payload := by
  unfold runAdminOp
  rw [if_pos (by simp : (some ADMIN_API_KEY == some ADMIN_API_KEY) = true)]

set_option maxRecDepth 8192 in
/-- C8 counterexample: the claim says any short_info free of carriage
returns and line feeds is accepted, but a 256-character single-line
short_info is rejected with ValidationError by the `max_length=255`
constraint on `EventCreate.short_info`. -/
theorem event_short_info_counterexample :
    ('\n' ∉ longInfo.data ∧ '\r' ∉ longInfo.data)
    ∧ runAdminOp (some ADMIN_API_KEY) (.createEvent ⟨"t", 0, longInfo, none⟩) emptyStore
        = (.error .validation, emptyStore) := by
  refine ⟨by decide, ?_⟩
  rw [runAdminOp_createEvent]
  exact admin_create_event_invalid emptyStore ⟨"t", 0, longInfo, none⟩ (by decide)

/-- C8 amended: an authorized event creation or update whose short_info
contains a carriage return or line feed fails with ValidationError and
persists nothing; a short_info without such characters and of length at
most 255 passes validation and is accepted (for an update, provided the
target event exists). -/
theorem event_short_info_single_line (api_key : Option String) (event_id : Int)
    (payload : EventCreate) (s : Store) (hk : api_key = some ADMIN_API_KEY) :
    (('\n' ∈ payload.short_info.data ∨ '\r' ∈ payload.short_info.data) →
        runAdminOp api_key (.createEvent payload) s = (.error .validation, s)
      ∧ runAdminOp api_key (.updateEvent event_id payload) s = (.error .validation, s))
    ∧ (('\n' ∉ payload.short_info.data ∧ '\r' ∉ payload.short_info.data
          ∧ payload.short_info.length ≤ 255) →
        runAdminOp api_key (.createEvent payload) s =
          (.ok (.event ⟨s.nextEventId, payload.title, payload.date, payload.short_info, payload.cover_url⟩),
           { s with
               events := s.events ++ [⟨s.nextEventId, payload.title, payload.date, payload.short_info, payload.cover_url⟩],
               nextEventId := s.nextEventId + 1 })
      ∧ ∀ e, s.events.find? (fun x => x.id == event_id) = some e →
          runAdminOp api_key (.updateEvent event_id payload) s =
            (.ok (.event ⟨e.id, payload.title, payload.date, payload.short_info, payload.cover_url⟩),
             { s with events := s.events.map fun x =>
                 if x.id == event_id then ⟨x.id, payload.title, payload.date, payload.short_info, payload.cover_url⟩ else x })) := by
  subst hk
  constructor
  · intro hbad
    have hval := eventCreateValid_false_of_newline hbad
    exact ⟨by rw [runAdminOp_createEvent]; exact admin_create_event_invalid s payload hval,
           by rw [runAdminOp_updateEvent]; exact admin_update_event_invalid s event_id payload hval⟩
  · rintro ⟨h1, h2, h3⟩
    have hval := eventCreateValid_true h1 h2 h3
    refine ⟨by rw [runAdminOp_createEvent]; exact admin_create_event_valid s payload hval, ?_⟩
    intro e hfind
    rw [runAdminOp_updateEvent]
    exact admin_update_event_found s event_id payload e hval hfind

/-- Witness for C8 (amended): a short_info with a newline is rejected for
both creation and update against `storeE`; the single-line short_info
"ok" is accepted for creation and for updating event 1. -/
theorem event_short_info_single_line_witness :
    (runAdminOp (some ADMIN_API_KEY) (.createEvent ⟨"t", 0, "a\nb", none⟩) storeE
          = (.error .validation, storeE)
      ∧ runAdminOp (some ADMIN_API_KEY) (.updateEvent 1 ⟨"t", 0, "a\nb", none⟩) storeE
          = (.error .validation, storeE))
    ∧ (runAdminOp (some ADMIN_API_KEY) (.createEvent ⟨"t2", 3, "ok", none⟩) storeE =
          (.ok (.event ⟨storeE.nextEventId, "t2", 3, "ok", none⟩),
           { storeE with
               events := storeE.events ++ [⟨storeE.nextEventId, "t2", 3, "ok", none⟩],
               nextEventId := storeE.nextEventId + 1 })
      ∧ runAdminOp (some ADMIN_API_KEY) (.updateEvent 1 ⟨"t2", 3, "ok", none⟩) storeE =
          (.ok (.event ⟨sampleEvent.id, "t2", 3, "ok", none⟩),
           { storeE with events := storeE.events.map fun x =>
               if x.id == 1 then ⟨x.id, "t2", 3, "ok", none⟩ else x })) :=
  ⟨event_short_info_single_line (some ADMIN_API_KEY) 1 ⟨"t", 0, "a\nb", none⟩ storeE rfl
      |>.1 (Or.inl (by decide)),
   ⟨(event_short_info_single_line (some ADMIN_API_KEY) 1 ⟨"t2", 3, "ok", none⟩ storeE rfl
       |>.2 (by decide)).1,
    (event_short_info_single_line (some ADMIN_API_KEY) 1 ⟨"t2", 3, "ok", none⟩ storeE rfl
       |>.2 (by decide)).2 sampleEvent (by decide)⟩⟩

end ChebPlace
